import Mathlib

/-!
# crud-with-mongo-echo: the five item handlers of `main.go`

A shallow embedding of `src/main.go`.  The five handlers (`getAllItems`,
`getItem`, `createItem`, `updateItem`, `deleteItem`) are translated line by
line.  What they call into - `primitive.ObjectIDFromHex`, `encoding/hex`,
`echo.Context.Bind` / `JSON` / `NoContent`, and the collection operations of
the MongoDB driver - is not part of the repository; it is embedded here from
its documented behaviour, as explicit state passing over a collection value:

* a Go `string` is a Lean `String`, and `len` is its UTF-8 byte length;
* the collection is the list of its documents, in store order; a document is
  `{_id, name, price}` where `_id` is either an ObjectID or a BSON string
  (the two shapes `Item` can be marshalled to, because of
  `bson:"_id,omitempty"` on a Go `string` field);
* everything the environment decides for one request (a driver or server
  failure of the store call, the ObjectID the driver generates for a document
  inserted without `_id`, a cursor breaking during iteration) is an `Env`
  argument of the handler;
* `Bind` is echo's default binder for a struct whose fields carry only `json`
  tags: path and query parameters bind nothing, the JSON body is decoded onto
  a zero `Item`;
* decoding a stored document into `Item` follows the driver's default string
  codec: an ObjectID `_id` is read into the string field `ID` as its hex form;
* the store keeps `_id` unique (`InsertOne` rejects a duplicate) and immutable
  (`ReplaceOne` rejects a replacement that names another `_id`), and a filter
  on an ObjectID never matches a string `_id`, whatever its characters.
-/

namespace CrudMongoEcho

/-! ## Go values -/

/-- A `primitive.ObjectID`: the `[12]byte` array, as the list of its bytes. -/
structure ObjectID where
  bytes : List Nat
deriving DecidableEq, Repr

/-- The value of a document's `_id`: an ObjectID, or a BSON string. -/
inductive BsonID where
  | objectID (oid : ObjectID)
  | string (s : String)
deriving DecidableEq, Repr

/-- The Go `error` values the handlers can meet. -/
inductive GoError where
  /-- The error `primitive.ErrInvalidHex`, "the provided hex string is not a valid ObjectID". -/
  | ErrInvalidHex
  /-- The error `hex.InvalidByteError b`. -/
  | InvalidByteError (b : Nat)
  /-- The error `hex.ErrLength`. -/
  | ErrLength
  /-- The error `mongo.ErrNoDocuments`, "mongo: no documents in result". -/
  | ErrNoDocuments
  /-- A write error E11000, duplicate key on `_id`. -/
  | DuplicateKey (id : BsonID)
  /-- A write error 66: the replacement would alter the immutable field `_id`. -/
  | ImmutableField
  /-- Any other failure of a store call (no connection, timeout, ...). -/
  | Driver (msg : String)
  /-- The error `c.Bind` returns for a body it cannot decode. -/
  | BindError (msg : String)
  /-- The error `c.Bind` returns for a number that does not fit the field
  `price` of type `int` (it wraps a `json.UnmarshalTypeError`). -/
  | BindTypeError
  /-- The error `echo.ErrNotFound` of the router, answered as 404. -/
  | ErrNotFound
deriving DecidableEq, Repr

deriving instance DecidableEq for Except

/-- The `Item` struct of `main.go`, lines 23-27. -/
structure Item where
  ID : String
  Name : String
  Price : Int
deriving DecidableEq, Repr

/-! ## `primitive.ObjectIDFromHex` and `ObjectID.Hex` -/

/-- UTF-8 encoding of one character, as bytes. -/
def utf8EncodeChar (c : Char) : List Nat :=
  let v := c.toNat
  if v ≤ 0x7f then [v]
  else if v ≤ 0x7ff then [0xc0 + v / 64, 0x80 + v % 64]
  else if v ≤ 0xffff then [0xe0 + v / 4096, 0x80 + v / 64 % 64, 0x80 + v % 64]
  else [0xf0 + v / 262144, 0x80 + v / 4096 % 64, 0x80 + v / 64 % 64, 0x80 + v % 64]

/-- The bytes of a Go string: `[]byte(s)`. -/
def goBytes (s : String) : List Nat :=
  s.data.flatMap utf8EncodeChar

/-- The value of one hex digit (`encoding/hex`, `fromHexChar` / `reverseHexTable`). -/
def fromHexChar (c : Nat) : Option Nat :=
  if 48 ≤ c ∧ c ≤ 57 then some (c - 48)
  else if 97 ≤ c ∧ c ≤ 102 then some (c - 97 + 10)
  else if 65 ≤ c ∧ c ≤ 70 then some (c - 65 + 10)
  else none

/-- The loop of `hex.Decode`: two source bytes per output byte, the first
invalid byte is reported, an odd length is reported after its last byte has
been checked. -/
def hexDecode : List Nat → Except GoError (List Nat)
  | [] => .ok []
  | [p] =>
    match fromHexChar p with
    | none => .error (.InvalidByteError p)
    | some _ => .error .ErrLength
  | p :: q :: rest =>
    match fromHexChar p with
    | none => .error (.InvalidByteError p)
    | some a =>
      match fromHexChar q with
      | none => .error (.InvalidByteError q)
      | some b =>
        match hexDecode rest with
        | .error e => .error e
        | .ok out => .ok ((a * 16 + b) :: out)

/-- The function `primitive.ObjectIDFromHex`: the length check on `len(s)`, then the hex
decoding of the 24 bytes. -/
def ObjectIDFromHex (s : String) : Except GoError ObjectID :=
  if (goBytes s).length ≠ 24 then .error .ErrInvalidHex
  else
    match hexDecode (goBytes s) with
    | .error e => .error e
    | .ok b => .ok ⟨b⟩

/-- The character of one hex digit, lower case (`hex.EncodeToString`). -/
def hexDigit (n : Nat) : Char :=
  if n < 10 then Char.ofNat (48 + n) else Char.ofNat (87 + n)

/-- The method `ObjectID.Hex`: two lower-case hex digits per byte. -/
def ObjectID.Hex (oid : ObjectID) : String :=
  String.mk (oid.bytes.flatMap fun b => [hexDigit (b / 16), hexDigit (b % 16)])

/-- An ObjectID as the driver produces it: twelve bytes. -/
def ObjectID.WF (oid : ObjectID) : Prop :=
  oid.bytes.length = 12 ∧ ∀ b ∈ oid.bytes, b < 256

instance (oid : ObjectID) : Decidable oid.WF := by
  unfold ObjectID.WF; exact inferInstance

/-- A hexadecimal character: `0-9`, `a-f` or `A-F`. -/
def isHexChar (c : Char) : Prop :=
  (48 ≤ c.toNat ∧ c.toNat ≤ 57) ∨ (97 ≤ c.toNat ∧ c.toNat ≤ 102) ∨ (65 ≤ c.toNat ∧ c.toNat ≤ 70)

instance (c : Char) : Decidable (isHexChar c) := by
  unfold isHexChar; exact inferInstance

/-- A string of exactly 24 hexadecimal characters. -/
def IsHex24 (s : String) : Prop :=
  s.length = 24 ∧ ∀ c ∈ s.data, isHexChar c

instance (s : String) : Decidable (IsHex24 s) := by
  unfold IsHex24; exact inferInstance

/-! ## The request body and `c.Bind` -/

/-- A request body as `c.Bind` sees it: either something the JSON decoder
rejects for the target `Item`, or a JSON object in which each of the keys
`id`, `name`, `price` is present or absent (an empty body binds like the
object without keys). -/
inductive Body where
  | malformed (msg : String)
  | object (id : Option String) (name : Option String) (price : Option Int)
deriving DecidableEq, Repr

/-- The values of a Go `int` (64 bits). -/
def inIntRange (n : Int) : Prop :=
  -(2 : Int) ^ 63 ≤ n ∧ n < (2 : Int) ^ 63

instance (n : Int) : Decidable (inIntRange n) := by
  unfold inIntRange; exact inferInstance

/-- The call `c.Bind(item)` on `item := new(Item)`: the fields whose key is
present are set, the others keep the zero value of `new(Item)`; a number that
does not fit a Go `int` is a decoding error. -/
def Bind : Body → Except GoError Item
  | .malformed msg => .error (.BindError msg)
  | .object id name price =>
    if inIntRange (price.getD 0) then
      .ok { ID := id.getD "", Name := name.getD "", Price := price.getD 0 }
    else .error .BindTypeError

/-! ## Responses -/

/-- The Go values the handlers pass to `c.JSON`. -/
inductive GoValue where
  /-- A string literal. -/
  | str (s : String)
  /-- The string `err.Error()`. -/
  | errText (e : GoError)
  /-- An `Item` (or a pointer to one). -/
  | item (i : Item)
  /-- A slice `[]Item`; `none` is the nil slice. -/
  | items (xs : Option (List Item))
deriving DecidableEq, Repr

/-- The JSON texts the handlers can write. -/
inductive JSON where
  | null
  /-- A JSON string holding a literal. -/
  | string (s : String)
  /-- A JSON string holding the text of an error. -/
  | errorString (e : GoError)
  /-- The object with keys `id`, `name`, `price` (no key of `Item` is omitted). -/
  | object (i : Item)
  /-- An array of such objects. -/
  | array (xs : List Item)
deriving DecidableEq, Repr

/-- The encoder `encoding/json` behind `c.JSON`: a nil slice is encoded as
`null`, a non-nil slice as an array. -/
def jsonMarshal : GoValue → JSON
  | .str s => .string s
  | .errText e => .errorString e
  | .item i => .object i
  | .items none => .null
  | .items (some xs) => .array xs

/-- A response written to the client: status code and body (`none`: no body). -/
structure Response where
  status : Nat
  body : Option JSON
deriving DecidableEq, Repr

/-- What a handler did with the request: it wrote a response and returned
nil, or it returned an error without writing anything. -/
inductive HandlerResult where
  | wrote (r : Response)
  | failed (err : GoError)
deriving DecidableEq, Repr

/-- The call `c.JSON(code, v)`. -/
def ctxJSON (code : Nat) (v : GoValue) : HandlerResult :=
  .wrote ⟨code, some (jsonMarshal v)⟩

/-- The call `c.NoContent(code)`. -/
def ctxNoContent (code : Nat) : HandlerResult :=
  .wrote ⟨code, none⟩

def StatusOK : Nat := 200
def StatusCreated : Nat := 201
def StatusNoContent : Nat := 204
def StatusBadRequest : Nat := 400
def StatusInternalServerError : Nat := 500

/-! ## The collection and the driver calls -/

/-- A stored document of the collection `items`. -/
structure Document where
  _id : BsonID
  name : String
  price : Int
deriving DecidableEq, Repr

/-- The collection `testdb.items`: its documents in store order. -/
abbrev Collection := List Document

/-- An `Item` marshalled to BSON: `_id` is omitted when `ID` is empty
(`bson:"_id,omitempty"`), and is a BSON string otherwise. -/
structure BsonItem where
  _id : Option BsonID
  name : String
  price : Int
deriving DecidableEq, Repr

/-- Marshalling of an `Item` by its `bson` tags. -/
def marshalBSON (item : Item) : BsonItem :=
  { _id := if item.ID = "" then none else some (.string item.ID)
    name := item.Name
    price := item.Price }

/-- Decoding of a stored document into an `Item`: an ObjectID `_id` is
decoded into the string field as its hex form, a string `_id` as itself. -/
def Decode (d : Document) : Except GoError Item :=
  .ok { ID := (match d._id with
               | .objectID oid => oid.Hex
               | .string s => s)
        Name := d.name
        Price := d.price }

/-- What the environment decides for one request. -/
structure Env where
  /-- A failure of the store call that is not about the documents. -/
  fault : Option String
  /-- The ObjectID the driver generates for a document inserted without `_id`. -/
  fresh : ObjectID
  /-- A cursor that breaks after so many documents, with the error it reports. -/
  cursorFault : Option (Nat × String)
deriving DecidableEq, Repr

/-- The store calls a handler issues. -/
inductive StoreCall where
  | Find
  | FindOne (oid : ObjectID)
  | InsertOne (doc : BsonItem)
  | ReplaceOne (oid : ObjectID) (doc : BsonItem)
  | DeleteOne (oid : ObjectID)
deriving DecidableEq, Repr

/-- The filter `bson.M{"_id": oid}`. -/
def matchesID (oid : ObjectID) (d : Document) : Bool :=
  decide (d._id = .objectID oid)

/-- The call `collection.FindOne(ctx, bson.M{"_id": oid}).Decode(&item)`. -/
def FindOne (e : Env) (c : Collection) (oid : ObjectID) : Except GoError Item :=
  match e.fault with
  | some msg => .error (.Driver msg)
  | none =>
    match c.find? (matchesID oid) with
    | none => .error .ErrNoDocuments
    | some d => Decode d

/-- The call `collection.InsertOne(ctx, item)`: a document without `_id` gets
the generated ObjectID; the unique index on `_id` rejects a duplicate. The
result is the inserted `_id` and the new collection; the Go value `item` is
not written to. -/
def InsertOne (e : Env) (c : Collection) (doc : BsonItem) : Except GoError (BsonID × Collection) :=
  match e.fault with
  | some msg => .error (.Driver msg)
  | none =>
    let id := doc._id.getD (.objectID e.fresh)
    if c.any (fun d => decide (d._id = id)) then .error (.DuplicateKey id)
    else .ok (id, c ++ [{ _id := id, name := doc.name, price := doc.price }])

/-- Replacement of the first document the filter matches; `_id` is kept. -/
def replaceFirst (oid : ObjectID) (doc : BsonItem) : Collection → Collection
  | [] => []
  | d :: ds =>
    if matchesID oid d then { _id := d._id, name := doc.name, price := doc.price } :: ds
    else d :: replaceFirst oid doc ds

/-- The call `collection.ReplaceOne(ctx, bson.M{"_id": oid}, item)` (no
upsert): without a match nothing happens; a replacement that names another
`_id` than the matched document's is rejected. The result is the matched
count and the new collection. -/
def ReplaceOne (e : Env) (c : Collection) (oid : ObjectID) (doc : BsonItem) :
    Except GoError (Nat × Collection) :=
  match e.fault with
  | some msg => .error (.Driver msg)
  | none =>
    match c.find? (matchesID oid) with
    | none => .ok (0, c)
    | some d =>
      match doc._id with
      | none => .ok (1, replaceFirst oid doc c)
      | some id => if id = d._id then .ok (1, replaceFirst oid doc c) else .error .ImmutableField

/-- Removal of the first document the filter matches. -/
def deleteFirst (oid : ObjectID) : Collection → Collection
  | [] => []
  | d :: ds => if matchesID oid d then ds else d :: deleteFirst oid ds

/-- The call `collection.DeleteOne(ctx, bson.M{"_id": oid})`: the result is
the deleted count and the new collection. -/
def DeleteOne (e : Env) (c : Collection) (oid : ObjectID) : Except GoError (Nat × Collection) :=
  match e.fault with
  | some msg => .error (.Driver msg)
  | none => .ok ((if c.any (matchesID oid) then 1 else 0), deleteFirst oid c)

/-- A cursor over the result of `Find`: the documents it will still deliver
and the error `cursor.Err()` reports once `Next` has returned false. -/
structure Cursor where
  rest : List Document
  err : Option GoError
deriving DecidableEq, Repr

/-- The call `collection.Find(ctx, bson.M{})`. -/
def Find (e : Env) (c : Collection) : Except GoError Cursor :=
  match e.fault with
  | some msg => .error (.Driver msg)
  | none =>
    match e.cursorFault with
    | none => .ok { rest := c, err := none }
    | some (k, msg) => .ok { rest := c.take k, err := some (.Driver msg) }

/-! ## The handlers of `main.go` -/

/-- The outcome of one handler call: what the client gets, the collection
afterwards, and the store calls that were issued. -/
structure Outcome where
  result : HandlerResult
  store : Collection
  calls : List StoreCall
deriving DecidableEq, Repr

/-- The handler `getItem` (`main.go`, lines 56-71); `id` is `c.Param("id")`. -/
def getItem (s : Collection) (id : String) (e : Env) : Outcome :=
  match ObjectIDFromHex id with
  | .error err => ⟨ctxJSON StatusBadRequest (.errText err), s, []⟩
  | .ok objectID =>
    match FindOne e s objectID with
    | .error err => ⟨ctxJSON StatusInternalServerError (.errText err), s, [.FindOne objectID]⟩
    | .ok item => ⟨ctxJSON StatusOK (.item item), s, [.FindOne objectID]⟩

/-- The handler `createItem` (`main.go`, lines 73-86): the result of
`InsertOne` is discarded and the bound item is sent back. -/
def createItem (s : Collection) (body : Body) (e : Env) : Outcome :=
  match Bind body with
  | .error err => ⟨.failed err, s, []⟩
  | .ok item =>
    match InsertOne e s (marshalBSON item) with
    | .error err =>
      ⟨ctxJSON StatusInternalServerError (.errText err), s, [.InsertOne (marshalBSON item)]⟩
    | .ok (_, s') => ⟨ctxJSON StatusCreated (.item item), s', [.InsertOne (marshalBSON item)]⟩

/-- The handler `updateItem` (`main.go`, lines 88-105): the identifier is
parsed before the body is bound. -/
def updateItem (s : Collection) (id : String) (body : Body) (e : Env) : Outcome :=
  match ObjectIDFromHex id with
  | .error _ => ⟨ctxJSON StatusBadRequest (.str "Invalid ID"), s, []⟩
  | .ok oid =>
    match Bind body with
    | .error err => ⟨.failed err, s, []⟩
    | .ok item =>
      match ReplaceOne e s oid (marshalBSON item) with
      | .error err =>
        ⟨ctxJSON StatusInternalServerError (.errText err), s, [.ReplaceOne oid (marshalBSON item)]⟩
      | .ok (_, s') => ⟨ctxJSON StatusOK (.item item), s', [.ReplaceOne oid (marshalBSON item)]⟩

/-- The handler `deleteItem` (`main.go`, lines 107-121). -/
def deleteItem (s : Collection) (id : String) (e : Env) : Outcome :=
  match ObjectIDFromHex id with
  | .error err => ⟨ctxJSON StatusBadRequest (.errText err), s, []⟩
  | .ok objectID =>
    match DeleteOne e s objectID with
    | .error err => ⟨ctxJSON StatusInternalServerError (.errText err), s, [.DeleteOne objectID]⟩
    | .ok (_, s') => ⟨ctxNoContent StatusNoContent, s', [.DeleteOne objectID]⟩

/-- The builtin `append(items, item)` on a possibly nil slice. -/
def goAppend : Option (List Item) → Item → Option (List Item)
  | none, item => some [item]
  | some xs, item => some (xs ++ [item])

/-- The loop `for cursor.Next(ctx) { ... }` of `getAllItems` (lines 133-139):
each delivered document is decoded and appended; a decoding error ends the
handler. -/
def decodeLoop : List Document → Option (List Item) → Except GoError (Option (List Item))
  | [], items => .ok items
  | d :: ds, items =>
    match Decode d with
    | .error err => .error err
    | .ok item => decodeLoop ds (goAppend items item)

/-- The handler `getAllItems` (`main.go`, lines 123-146); `items` starts as
the nil slice of `var items []Item`. -/
def getAllItems (s : Collection) (e : Env) : Outcome :=
  match Find e s with
  | .error err => ⟨ctxJSON StatusInternalServerError (.errText err), s, [.Find]⟩
  | .ok cursor =>
    match decodeLoop cursor.rest none with
    | .error err => ⟨ctxJSON StatusInternalServerError (.errText err), s, [.Find]⟩
    | .ok items =>
      match cursor.err with
      | some err => ⟨ctxJSON StatusInternalServerError (.errText err), s, [.Find]⟩
      | none => ⟨ctxJSON StatusOK (.items items), s, [.Find]⟩

/-! ## Requests and traces -/

/-- The five routes registered in `main` (lines 46-50). -/
inductive Request where
  | list
  | get (id : String)
  | create (body : Body)
  | update (id : String) (body : Body)
  | delete (id : String)
deriving DecidableEq, Repr

/-- The router finds no route: `echo.NotFoundHandler` returns
`echo.ErrNotFound`, no handler of `main.go` runs. -/
def notFound (s : Collection) : Outcome :=
  ⟨.failed .ErrNotFound, s, []⟩

/-- Dispatch of a request to its handler. The path `/items/` with an empty
identifier does not match the route `/items/:id`. -/
def serve (s : Collection) (r : Request) (e : Env) : Outcome :=
  match r with
  | .list => getAllItems s e
  | .get id => if id = "" then notFound s else getItem s id e
  | .create body => createItem s body e
  | .update id body => if id = "" then notFound s else updateItem s id body e
  | .delete id => if id = "" then notFound s else deleteItem s id e

/-- The collection after a sequence of requests, served one after the other. -/
def run (s : Collection) : List (Request × Env) → Collection
  | [] => s
  | (r, e) :: rest => run (serve s r e).store rest

/-- The status a handler wrote, if it wrote a response. -/
def HandlerResult.status? : HandlerResult → Option Nat
  | .wrote r => some r.status
  | .failed _ => none

/-- The number of create requests of a trace that were answered with 201. -/
def createdCount (s : Collection) : List (Request × Env) → Nat
  | [] => 0
  | (r, e) :: rest =>
    (match r with
      | .create _ => if (serve s r e).result.status? = some StatusCreated then 1 else 0
      | _ => 0) + createdCount (serve s r e).store rest

/-- A request that is not a delete. -/
def Request.isDelete : Request → Bool
  | .delete _ => true
  | _ => false

/-- The `_id` values of a collection, in store order. -/
def ids (s : Collection) : List BsonID :=
  s.map (fun d => d._id)

/-- An environment in which the store works. -/
def env0 : Env :=
  { fault := none, fresh := ⟨[101, 79, 26, 42, 0, 0, 0, 0, 0, 0, 0, 1]⟩, cursorFault := none }

/-! ## Identifier parsing -/

theorem fromHexChar_isSome_le {x : Nat} (h : (fromHexChar x).isSome) : x ≤ 102 := by
  unfold fromHexChar at h
  split_ifs at h <;> first | omega | simp at h

theorem hexDecode_ok_all :
    ∀ (b out : List Nat), hexDecode b = .ok out → ∀ x ∈ b, (fromHexChar x).isSome
  | [], _, _, x, hx => by simp at hx
  | [p], out, h, _, _ => by
    unfold hexDecode at h
    split at h <;> simp at h
  | p :: q :: rest, out, h, x, hx => by
    have ih := hexDecode_ok_all rest
    unfold hexDecode at h
    cases hp : fromHexChar p with
    | none => simp [hp] at h
    | some a =>
      cases hq : fromHexChar q with
      | none => simp [hp, hq] at h
      | some c =>
        cases hr : hexDecode rest with
        | error err => simp [hp, hq, hr] at h
        | ok o =>
          simp only [List.mem_cons] at hx
          rcases hx with hx | hx | hx
          · simp [hx, hp]
          · simp [hx, hq]
          · exact ih o hr x hx

theorem utf8EncodeChar_hex (c : Char)
    (h : ∀ x ∈ utf8EncodeChar c, (fromHexChar x).isSome) :
    utf8EncodeChar c = [c.toNat] ∧ isHexChar c := by
  unfold utf8EncodeChar at h ⊢
  simp only at h ⊢
  split_ifs at h ⊢ with h1 h2 h3
  · refine ⟨rfl, ?_⟩
    have hx := h c.toNat (by simp)
    unfold fromHexChar at hx
    unfold isHexChar
    split_ifs at hx with a1 a2 a3
    · exact Or.inl a1
    · exact Or.inr (Or.inl a2)
    · exact Or.inr (Or.inr a3)
    · simp at hx
  · have := fromHexChar_isSome_le (h _ (List.mem_cons_self _ _)); omega
  · have := fromHexChar_isSome_le (h _ (List.mem_cons_self _ _)); omega
  · have := fromHexChar_isSome_le (h _ (List.mem_cons_self _ _)); omega

theorem flatMap_utf8_hex (cs : List Char)
    (h : ∀ x ∈ cs.flatMap utf8EncodeChar, (fromHexChar x).isSome) :
    (cs.flatMap utf8EncodeChar).length = cs.length ∧ ∀ c ∈ cs, isHexChar c := by
  induction cs with
  | nil => simp
  | cons c cs ih =>
    have hc := utf8EncodeChar_hex c (fun x hx => h x (by simp [List.flatMap_cons, hx]))
    have hcs := ih (fun x hx => h x (by simp [List.flatMap_cons, hx]))
    refine ⟨?_, ?_⟩
    · simp [List.flatMap_cons, hc.1, hcs.1]
    · intro d hd
      rcases List.mem_cons.mp hd with rfl | hd
      · exact hc.2
      · exact hcs.2 d hd

/-- Parsing succeeds only on a string of 24 hexadecimal characters. -/
theorem ObjectIDFromHex_ok_isHex24 (s : String) (oid : ObjectID)
    (h : ObjectIDFromHex s = .ok oid) : IsHex24 s := by
  unfold ObjectIDFromHex at h
  split_ifs at h with hlen
  cases hd : hexDecode (goBytes s) with
  | error err => simp [hd] at h
  | ok b =>
    have hall := hexDecode_ok_all _ b hd
    have := flatMap_utf8_hex s.data hall
    unfold goBytes at hlen
    refine ⟨?_, this.2⟩
    have hl : s.length = s.data.length := rfl
    omega

/-- Parsing fails on every string that is not 24 hexadecimal characters. -/
theorem ObjectIDFromHex_error_of_not_isHex24 (s : String) (h : ¬ IsHex24 s) :
    ∃ err, ObjectIDFromHex s = .error err := by
  cases hr : ObjectIDFromHex s with
  | error err => exact ⟨err, rfl⟩
  | ok oid => exact absurd (ObjectIDFromHex_ok_isHex24 s oid hr) h

theorem hexDigit_spec : ∀ n < 16,
    utf8EncodeChar (hexDigit n) = [if n < 10 then 48 + n else 87 + n] ∧
    fromHexChar (if n < 10 then 48 + n else 87 + n) = some n := by
  decide

theorem hexDecode_hexBytes (bs : List Nat) (h : ∀ b ∈ bs, b < 256) :
    hexDecode ((bs.flatMap fun b => [hexDigit (b / 16), hexDigit (b % 16)]).flatMap
      utf8EncodeChar) = .ok bs := by
  induction bs with
  | nil => rfl
  | cons b bs ih =>
    have hb : b < 256 := h b (by simp)
    have h1 := hexDigit_spec (b / 16) (by omega)
    have h2 := hexDigit_spec (b % 16) (by omega)
    have ih2 := ih (fun x hx => h x (by simp [hx]))
    simp only [List.flatMap_cons, List.cons_append, List.nil_append, List.singleton_append,
      h1.1, h2.1]
    unfold hexDecode
    simp only [h1.2, h2.2, ih2]
    congr 2
    omega

theorem length_hexBytes (bs : List Nat) (h : ∀ b ∈ bs, b < 256) :
    ((bs.flatMap fun b => [hexDigit (b / 16), hexDigit (b % 16)]).flatMap
      utf8EncodeChar).length = 2 * bs.length := by
  induction bs with
  | nil => rfl
  | cons b bs ih =>
    have hb : b < 256 := h b (by simp)
    have h1 := hexDigit_spec (b / 16) (by omega)
    have h2 := hexDigit_spec (b % 16) (by omega)
    have ih2 := ih (fun x hx => h x (by simp [hx]))
    simp only [List.flatMap_cons, List.cons_append, List.nil_append, List.singleton_append,
      h1.1, h2.1, List.length_cons, ih2]
    omega

/-- The hex form of an ObjectID parses back to it. -/
theorem ObjectIDFromHex_Hex (oid : ObjectID) (h : oid.WF) :
    ObjectIDFromHex oid.Hex = .ok oid := by
  unfold ObjectIDFromHex goBytes ObjectID.Hex
  simp only [length_hexBytes oid.bytes h.2, hexDecode_hexBytes oid.bytes h.2, h.1]
  simp

theorem hexDecode_ok_of_hex :
    ∀ (b : List Nat), b.length % 2 = 0 → (∀ x ∈ b, (fromHexChar x).isSome) →
      ∃ out, hexDecode b = .ok out
  | [], _, _ => ⟨[], rfl⟩
  | [p], hl, _ => by simp at hl
  | p :: q :: rest, hl, h => by
    obtain ⟨o, ho⟩ := hexDecode_ok_of_hex rest (by simp at hl; omega)
      (fun x hx => h x (by simp [hx]))
    obtain ⟨a, ha⟩ := Option.isSome_iff_exists.mp (h p (by simp))
    obtain ⟨c, hc⟩ := Option.isSome_iff_exists.mp (h q (by simp))
    exact ⟨(a * 16 + c) :: o, by unfold hexDecode; simp [ha, hc, ho]⟩

theorem utf8EncodeChar_of_isHexChar (c : Char) (h : isHexChar c) :
    utf8EncodeChar c = [c.toNat] ∧ (fromHexChar c.toNat).isSome := by
  unfold isHexChar at h
  unfold utf8EncodeChar fromHexChar
  simp only
  refine ⟨?_, ?_⟩
  · rw [if_pos (by omega)]
  · split_ifs <;> first | rfl | omega

theorem goBytes_of_hex (cs : List Char) (h : ∀ c ∈ cs, isHexChar c) :
    (cs.flatMap utf8EncodeChar).length = cs.length ∧
      ∀ x ∈ cs.flatMap utf8EncodeChar, (fromHexChar x).isSome := by
  induction cs with
  | nil => simp
  | cons c cs ih =>
    have hc := utf8EncodeChar_of_isHexChar c (h c (by simp))
    have hcs := ih (fun d hd => h d (by simp [hd]))
    refine ⟨by simp [List.flatMap_cons, hc.1, hcs.1], ?_⟩
    intro x hx
    simp only [List.flatMap_cons, List.mem_append, hc.1, List.mem_singleton] at hx
    rcases hx with rfl | hx
    · exact hc.2
    · exact hcs.2 x hx

/-- The identifiers `ObjectIDFromHex` accepts are exactly the strings of 24
hexadecimal characters. -/
theorem ObjectIDFromHex_ok_iff (s : String) :
    (∃ oid, ObjectIDFromHex s = .ok oid) ↔ IsHex24 s := by
  constructor
  · rintro ⟨oid, h⟩
    exact ObjectIDFromHex_ok_isHex24 s oid h
  · intro h
    have hb := goBytes_of_hex s.data h.2
    have hl : s.data.length = 24 := h.1
    obtain ⟨o, ho⟩ := hexDecode_ok_of_hex (goBytes s) (by unfold goBytes; omega) hb.2
    refine ⟨⟨o⟩, ?_⟩
    unfold ObjectIDFromHex
    rw [if_neg (by unfold goBytes; omega), ho]

/-! ## Lemmas on the store calls -/

theorem find?_matchesID_none (s : Collection) (oid : ObjectID)
    (h : ∀ d ∈ s, d._id ≠ .objectID oid) : s.find? (matchesID oid) = none := by
  rw [List.find?_eq_none]
  intro d hd
  simp [matchesID, h d hd]

theorem deleteFirst_of_no_match (s : Collection) (oid : ObjectID)
    (h : ∀ d ∈ s, d._id ≠ .objectID oid) : deleteFirst oid s = s := by
  induction s with
  | nil => rfl
  | cons d ds ih =>
    have hd : matchesID oid d = false := by simp [matchesID, h d (by simp)]
    simp [deleteFirst, hd, ih (fun x hx => h x (by simp [hx]))]

theorem deleteFirst_no_match_of_nodup (s : Collection) (oid : ObjectID)
    (h : (ids s).Nodup) : ∀ d ∈ deleteFirst oid s, d._id ≠ .objectID oid := by
  induction s with
  | nil => intro d hd; simp [deleteFirst] at hd
  | cons x xs ih =>
    have hx : x._id ∉ ids xs ∧ (ids xs).Nodup := by simpa [ids] using h
    unfold deleteFirst
    split_ifs with hm
    · intro d hd heq
      have hxid : x._id = .objectID oid := by simpa [matchesID] using hm
      exact hx.1 (by rw [hxid, ← heq]; exact List.mem_map_of_mem _ hd)
    · intro d hd
      rcases List.mem_cons.mp hd with rfl | hd
      · simpa [matchesID] using hm
      · exact ih hx.2 d hd

theorem ids_replaceFirst (s : Collection) (oid : ObjectID) (doc : BsonItem) :
    ids (replaceFirst oid doc s) = ids s := by
  induction s with
  | nil => rfl
  | cons d ds ih =>
    unfold replaceFirst
    split_ifs
    · simp [ids]
    · simpa [ids] using ih

theorem find?_replaceFirst (s : Collection) (oid : ObjectID) (doc : BsonItem) (d : Document)
    (h : s.find? (matchesID oid) = some d) :
    (replaceFirst oid doc s).find? (matchesID oid) =
      some (Document.mk (.objectID oid) doc.name doc.price) := by
  induction s with
  | nil => simp at h
  | cons x xs ih =>
    unfold replaceFirst
    by_cases hm : matchesID oid x = true
    · have hx : x._id = .objectID oid := by simpa [matchesID] using hm
      simp [hm, hx, matchesID]
    · have hm2 : matchesID oid x = false := by simpa using hm
      rw [List.find?_cons, hm2] at h
      simp only [hm2, Bool.false_eq_true, if_false, List.find?_cons]
      exact ih h

theorem Bind_object_ok (id name : Option String) (price : Option Int) (item : Item)
    (h : Bind (.object id name price) = .ok item) :
    item = ⟨id.getD "", name.getD "", price.getD 0⟩ := by
  simp only [Bind] at h
  split_ifs at h
  simpa using h.symm

theorem Bind_object_cases (id name : Option String) (price : Option Int) :
    Bind (.object id name price) = .ok ⟨id.getD "", name.getD "", price.getD 0⟩ ∨
      ∃ err, Bind (.object id name price) = .error err := by
  simp only [Bind]
  split_ifs
  · exact Or.inl rfl
  · exact Or.inr ⟨_, rfl⟩

theorem find?_append_new (s : Collection) (oid : ObjectID) (name : String) (price : Int)
    (h : s.any (fun d => decide (d._id = BsonID.objectID oid)) = false) :
    (s ++ [Document.mk (.objectID oid) name price]).find? (matchesID oid) =
      some (Document.mk (.objectID oid) name price) := by
  have hno : ∀ d ∈ s, d._id ≠ .objectID oid := by
    intro d hd heq
    have := List.any_eq_false.mp h d hd
    simp [heq] at this
  rw [List.find?_append, find?_matchesID_none s oid hno]
  simp [matchesID]

theorem find?_matchesID_of_mem (s : Collection) (oid : ObjectID)
    (h : ∃ d ∈ s, d._id = .objectID oid) : ∃ d, s.find? (matchesID oid) = some d := by
  obtain ⟨d, hd, hid⟩ := h
  have : (s.find? (matchesID oid)).isSome := by
    rw [List.find?_isSome]
    exact ⟨d, hd, by simp [matchesID, hid]⟩
  exact Option.isSome_iff_exists.mp this

/-- What a create request answered with 201 did: the body bound to an item,
and the document marshalled from it was appended under the `_id` it carried,
or under the generated ObjectID when it carried none. -/
theorem createItem_created (s : Collection) (body : Body) (e : Env)
    (h : (createItem s body e).result.status? = some 201) :
    ∃ item, Bind body = .ok item ∧
      (createItem s body e).result = .wrote ⟨201, some (.object item)⟩ ∧
      s.any (fun d => decide (d._id = (marshalBSON item)._id.getD (.objectID e.fresh))) = false ∧
      (createItem s body e).store =
        s ++ [{ _id := (marshalBSON item)._id.getD (.objectID e.fresh),
                name := item.Name, price := item.Price }] := by
  unfold createItem at h ⊢
  cases hb : Bind body with
  | error err => simp [hb, HandlerResult.status?] at h
  | ok item =>
    refine ⟨item, rfl, ?_⟩
    cases hf : e.fault with
    | some msg =>
      simp [hb, InsertOne, hf, ctxJSON, HandlerResult.status?, StatusInternalServerError] at h
    | none =>
      by_cases hdup : s.any (fun d => decide (d._id = (marshalBSON item)._id.getD
          (.objectID e.fresh))) = true
      · simp [hb, InsertOne, hf, hdup, ctxJSON, HandlerResult.status?,
          StatusInternalServerError] at h
      · have hdup2 : s.any (fun d => decide (d._id = (marshalBSON item)._id.getD
            (.objectID e.fresh))) = false := by simpa using hdup
        simp only [InsertOne, hf, hdup2]
        simp [ctxJSON, jsonMarshal, StatusCreated, marshalBSON]

/-! ## One request at a time -/

theorem createItem_store (s : Collection) (body : Body) (e : Env) :
    ((createItem s body e).result.status? ≠ some 201 ∧ (createItem s body e).store = s) ∨
    ((createItem s body e).result.status? = some 201 ∧
      ∃ d, d._id ∉ ids s ∧ (createItem s body e).store = s ++ [d]) := by
  by_cases h : (createItem s body e).result.status? = some 201
  · right
    obtain ⟨item, _, _, hnew, hstore⟩ := createItem_created s body e h
    refine ⟨h, _, ?_, hstore⟩
    intro hmem
    obtain ⟨d, hd, hid⟩ := List.mem_map.mp hmem
    have := List.any_eq_false.mp hnew d hd
    simp at hid
    simp [hid] at this
  · left
    refine ⟨h, ?_⟩
    unfold createItem at h ⊢
    split
    · rfl
    · split
      · rfl
      · rename_i hb _ _ _ hi
        simp [hb, hi, ctxJSON, HandlerResult.status?, StatusCreated] at h

theorem updateItem_ids (s : Collection) (id : String) (body : Body) (e : Env) :
    ids (updateItem s id body e).store = ids s := by
  unfold updateItem
  split
  · rfl
  · split
    · rfl
    · split
      · rfl
      · rename_i hr
        unfold ReplaceOne at hr
        split at hr
        · simp at hr
        · split at hr
          · simp at hr
            rw [← hr.2]
          · split at hr
            · simp at hr
              rw [← hr.2]
              exact ids_replaceFirst s _ _
            · split_ifs at hr
              simp at hr
              rw [← hr.2]
              exact ids_replaceFirst s _ _

theorem getItem_store (s : Collection) (id : String) (e : Env) : (getItem s id e).store = s := by
  unfold getItem
  split
  · rfl
  · split <;> rfl

theorem getAllItems_store (s : Collection) (e : Env) : (getAllItems s e).store = s := by
  unfold getAllItems
  split
  · rfl
  · split
    · rfl
    · split <;> rfl

theorem serve_get_store (s : Collection) (id : String) (e : Env) :
    (serve s (.get id) e).store = s := by
  simp only [serve]
  split_ifs
  · rfl
  · exact getItem_store s id e

theorem serve_update_ids (s : Collection) (id : String) (body : Body) (e : Env) :
    ids (serve s (.update id body) e).store = ids s := by
  simp only [serve]
  split_ifs
  · rfl
  · exact updateItem_ids s id body e

theorem length_of_ids_eq (s t : Collection) (h : ids s = ids t) : s.length = t.length := by
  have := congrArg List.length h
  simpa [ids] using this

theorem serve_length (s : Collection) (r : Request) (e : Env) (hr : r.isDelete = false) :
    (serve s r e).store.length = s.length + createdCount s [(r, e)] := by
  cases r with
  | list => simp [serve, getAllItems_store, createdCount]
  | get id => simp [serve_get_store, createdCount]
  | create body =>
    rcases createItem_store s body e with ⟨hn, hs⟩ | ⟨hc, d, _, hs⟩
    · simp [serve, createdCount, hs, hn, StatusCreated]
    · simp [serve, createdCount, hs, hc, StatusCreated]
  | update id body =>
    simp [createdCount, length_of_ids_eq _ _ (serve_update_ids s id body e)]
  | delete id => simp [Request.isDelete] at hr

theorem run_length (trace : List (Request × Env)) :
    ∀ s : Collection, (∀ p ∈ trace, p.1.isDelete = false) →
      (run s trace).length = s.length + createdCount s trace := by
  induction trace with
  | nil => intro s _; rfl
  | cons p rest ih =>
    intro s h
    obtain ⟨r, e⟩ := p
    have h1 := serve_length s r e (h (r, e) (by simp))
    have h2 := ih (serve s r e).store (fun q hq => h q (by simp [hq]))
    simp only [run, h2, h1]
    simp only [createdCount]
    omega

theorem decodeLoop_spec (ds : List Document) :
    ∀ acc : Option (List Item), ∃ items, decodeLoop ds acc = .ok items ∧
      (items.getD []).map Except.ok = (acc.getD []).map Except.ok ++ ds.map Decode ∧
      (ds ≠ [] → items = some (items.getD [])) := by
  induction ds with
  | nil => intro acc; exact ⟨acc, rfl, by simp, by simp⟩
  | cons d ds ih =>
    intro acc
    obtain ⟨items, h1, h2, h3⟩ := ih (goAppend acc ⟨(match d._id with
               | .objectID oid => oid.Hex
               | .string s => s), d.name, d.price⟩)
    refine ⟨items, by simpa [decodeLoop, Decode] using h1, ?_, ?_⟩
    · rw [h2]
      cases acc <;> simp [goAppend, Decode]
    · intro _
      cases hds : ds with
      | nil =>
        subst hds
        simp only [decodeLoop] at h1
        cases acc <;> simp [goAppend] at h1 <;> simp [← h1]
      | cons x xs => exact h3 (by simp [hds])

/-! ## The claims -/

/-- C1: for every path identifier that is not a string of exactly 24
hexadecimal characters, `getItem`, `updateItem` and `deleteItem` each answer
with status 400, whatever the collection, the request body (malformed or not)
and the environment are; no store call is issued and the collection is left
as it was. -/
theorem C1_invalid_identifier_is_400 (id : String) (h : ¬ IsHex24 id)
    (s : Collection) (body : Body) (e : Env) :
    ((getItem s id e).result.status? = some 400 ∧ (getItem s id e).calls = [] ∧
        (getItem s id e).store = s) ∧
    ((updateItem s id body e).result.status? = some 400 ∧ (updateItem s id body e).calls = [] ∧
        (updateItem s id body e).store = s) ∧
    ((deleteItem s id e).result.status? = some 400 ∧ (deleteItem s id e).calls = [] ∧
        (deleteItem s id e).store = s) := by
  obtain ⟨err, herr⟩ := ObjectIDFromHex_error_of_not_isHex24 id h
  simp [getItem, updateItem, deleteItem, herr, ctxJSON, HandlerResult.status?, StatusBadRequest]

/-- Witness for C1: the identifier `xyz`, a malformed body, one stored document. -/
theorem C1_invalid_identifier_is_400_witness :
    ¬ IsHex24 "xyz" ∧
    ((getItem [⟨.string "a", "n", 1⟩] "xyz" env0).result.status? = some 400 ∧
        (getItem [⟨.string "a", "n", 1⟩] "xyz" env0).calls = [] ∧
        (getItem [⟨.string "a", "n", 1⟩] "xyz" env0).store = [⟨.string "a", "n", 1⟩]) ∧
    ((updateItem [⟨.string "a", "n", 1⟩] "xyz" (.malformed "EOF") env0).result.status? = some 400 ∧
        (updateItem [⟨.string "a", "n", 1⟩] "xyz" (.malformed "EOF") env0).calls = [] ∧
        (updateItem [⟨.string "a", "n", 1⟩] "xyz" (.malformed "EOF") env0).store =
          [⟨.string "a", "n", 1⟩]) ∧
    ((deleteItem [⟨.string "a", "n", 1⟩] "xyz" env0).result.status? = some 400 ∧
        (deleteItem [⟨.string "a", "n", 1⟩] "xyz" env0).calls = [] ∧
        (deleteItem [⟨.string "a", "n", 1⟩] "xyz" env0).store = [⟨.string "a", "n", 1⟩]) :=
  ⟨by decide,
    C1_invalid_identifier_is_400 "xyz" (by decide) [⟨.string "a", "n", 1⟩] (.malformed "EOF") env0⟩

/-- C4: for every identifier that parses, every collection without two
documents of the same `_id`, and store calls that do not fail, `deleteItem`
answers 204 with no body whether or not a document has that identifier;
deleting the same identifier a second time answers 204 again and leaves the
collection as the first call left it. -/
theorem C4_delete_idempotent (s : Collection) (id : String) (oid : ObjectID) (e1 e2 : Env)
    (hid : ObjectIDFromHex id = .ok oid) (hs : (ids s).Nodup)
    (h1 : e1.fault = none) (h2 : e2.fault = none) :
    (deleteItem s id e1).result = .wrote ⟨204, none⟩ ∧
    (deleteItem (deleteItem s id e1).store id e2).result = .wrote ⟨204, none⟩ ∧
    (deleteItem (deleteItem s id e1).store id e2).store = (deleteItem s id e1).store := by
  have hstore : (deleteItem s id e1).store = deleteFirst oid s := by
    simp [deleteItem, hid, DeleteOne, h1]
  refine ⟨by simp [deleteItem, hid, DeleteOne, h1, ctxNoContent, StatusNoContent], ?_, ?_⟩
  · simp [deleteItem, hid, DeleteOne, h2, ctxNoContent, StatusNoContent]
  · rw [hstore]
    simp only [deleteItem, hid, DeleteOne, h2]
    exact deleteFirst_of_no_match _ _ (deleteFirst_no_match_of_nodup s oid hs)

/-- Witness for C4: a collection of two documents, the first one deleted twice. -/
theorem C4_delete_idempotent_witness :
    ObjectIDFromHex "654f1a2a0000000000000001" = .ok env0.fresh ∧
    (deleteItem [⟨.objectID env0.fresh, "a", 1⟩, ⟨.string "k", "b", 2⟩]
        "654f1a2a0000000000000001" env0).result = .wrote ⟨204, none⟩ ∧
    (deleteItem (deleteItem [⟨.objectID env0.fresh, "a", 1⟩, ⟨.string "k", "b", 2⟩]
        "654f1a2a0000000000000001" env0).store "654f1a2a0000000000000001" env0).result =
      .wrote ⟨204, none⟩ ∧
    (deleteItem (deleteItem [⟨.objectID env0.fresh, "a", 1⟩, ⟨.string "k", "b", 2⟩]
        "654f1a2a0000000000000001" env0).store "654f1a2a0000000000000001" env0).store =
      (deleteItem [⟨.objectID env0.fresh, "a", 1⟩, ⟨.string "k", "b", 2⟩]
        "654f1a2a0000000000000001" env0).store :=
  ⟨by decide,
    C4_delete_idempotent [⟨.objectID env0.fresh, "a", 1⟩, ⟨.string "k", "b", 2⟩]
      "654f1a2a0000000000000001" env0.fresh env0 env0 (by decide) (by decide) rfl rfl⟩

/-- C5: for every identifier that parses and matches no document, `getItem`
answers with status 500 and the text of the error as body - the error is
"no documents in result" when the store call itself works, and the store
failure otherwise, under the same status; it answers neither 404 nor 200. -/
theorem C5_get_missing_is_500 (s : Collection) (id : String) (oid : ObjectID) (e : Env)
    (hid : ObjectIDFromHex id = .ok oid) (hno : ∀ d ∈ s, d._id ≠ .objectID oid) :
    (∃ err, (getItem s id e).result = .wrote ⟨500, some (.errorString err)⟩ ∧
      (e.fault = none → err = .ErrNoDocuments) ∧
      (∀ msg, e.fault = some msg → err = .Driver msg)) ∧
    (getItem s id e).result.status? ≠ some 404 ∧
    (getItem s id e).result.status? ≠ some 200 := by
  have hfind := find?_matchesID_none s oid hno
  cases hf : e.fault with
  | none =>
    simp [getItem, hid, FindOne, hf, hfind, ctxJSON, jsonMarshal, StatusInternalServerError,
      HandlerResult.status?]
  | some msg =>
    simp [getItem, hid, FindOne, hf, ctxJSON, jsonMarshal, StatusInternalServerError,
      HandlerResult.status?]

/-- Witness for C5: the only stored document has the 24 characters as a string `_id`, not as an ObjectID, so the lookup finds nothing. -/
theorem C5_get_missing_is_500_witness :
    ObjectIDFromHex "654f1a2a0000000000000001" = .ok env0.fresh ∧
    ((∃ err, (getItem [⟨.string "654f1a2a0000000000000001", "a", 1⟩]
        "654f1a2a0000000000000001" env0).result = .wrote ⟨500, some (.errorString err)⟩ ∧
      (env0.fault = none → err = .ErrNoDocuments) ∧
      (∀ msg, env0.fault = some msg → err = .Driver msg)) ∧
    (getItem [⟨.string "654f1a2a0000000000000001", "a", 1⟩]
        "654f1a2a0000000000000001" env0).result.status? ≠ some 404 ∧
    (getItem [⟨.string "654f1a2a0000000000000001", "a", 1⟩]
        "654f1a2a0000000000000001" env0).result.status? ≠ some 200) :=
  ⟨by decide,
    C5_get_missing_is_500 [⟨.string "654f1a2a0000000000000001", "a", 1⟩]
      "654f1a2a0000000000000001" env0.fresh env0 (by decide) (by decide)⟩

/-- C6 (what the code does): on the empty collection, with the store calls
succeeding, `getAllItems` answers 200 with the JSON text `null`, the encoding
of the nil slice `var items []Item` that the loop never appended to; the body
is not the empty array. -/
theorem C6_empty_collection_lists_null (fresh : ObjectID) :
    (getAllItems [] ⟨none, fresh, none⟩).result = .wrote ⟨200, some .null⟩ ∧
    (getAllItems [] ⟨none, fresh, none⟩).result ≠ .wrote ⟨200, some (.array [])⟩ := by
  simp [getAllItems, Find, decodeLoop, ctxJSON, jsonMarshal, StatusOK]

/-- C8: for every identifier that parses and matches no document and every
body that binds, with the store call not failing, `updateItem` leaves the
collection unchanged and answers 200 with exactly the submitted item. -/
theorem C8_update_without_match (s : Collection) (id : String) (oid : ObjectID) (body : Body)
    (item : Item) (e : Env)
    (hid : ObjectIDFromHex id = .ok oid) (hno : ∀ d ∈ s, d._id ≠ .objectID oid)
    (hb : Bind body = .ok item) (hf : e.fault = none) :
    (updateItem s id body e).store = s ∧
    (updateItem s id body e).result = .wrote ⟨200, some (.object item)⟩ := by
  have hfind := find?_matchesID_none s oid hno
  simp [updateItem, hid, hb, ReplaceOne, hf, hfind, ctxJSON, jsonMarshal, StatusOK]

/-- Witness for C8: an update that matches nothing, with a body that carries another `id`. -/
theorem C8_update_without_match_witness :
    ObjectIDFromHex "654f1a2a0000000000000001" = .ok env0.fresh ∧
    Bind (.object (some "other") (some "b") none) = .ok ⟨"other", "b", 0⟩ ∧
    (updateItem [⟨.string "k", "a", 1⟩] "654f1a2a0000000000000001"
        (.object (some "other") (some "b") none) env0).store = [⟨.string "k", "a", 1⟩] ∧
    (updateItem [⟨.string "k", "a", 1⟩] "654f1a2a0000000000000001"
        (.object (some "other") (some "b") none) env0).result =
      .wrote ⟨200, some (.object ⟨"other", "b", 0⟩)⟩ :=
  ⟨by decide, by decide,
    C8_update_without_match [⟨.string "k", "a", 1⟩] "654f1a2a0000000000000001" env0.fresh
      (.object (some "other") (some "b") none) ⟨"other", "b", 0⟩ env0 (by decide) (by decide)
      (by decide) rfl⟩

/-- C2 (as stated, refuted): after a create of `{name: "widget", price: 10}`
answered with 201, the `id` of the response body is the empty string, and
`getItem` on that identifier answers 400, not 200. -/
theorem C2_response_id_does_not_round_trip :
    (createItem [] (.object none (some "widget") (some 10)) env0).result =
      .wrote ⟨201, some (.object ⟨"", "widget", 10⟩)⟩ ∧
    (getItem (createItem [] (.object none (some "widget") (some 10)) env0).store "" env0).result =
      .wrote ⟨400, some (.errorString .ErrInvalidHex)⟩ := by
  decide

/-- C2 (amended): for every name and price, if `createItem` on the body
`{name, price}` (no id) is answered with 201, the response body is the
submitted item with an empty `id`, the inserted document carries the ObjectID
the driver generated, and `getItem` on the hex form of that ObjectID answers
200 with an item of the submitted name and price. -/
theorem C2_round_trip_by_assigned_id (s : Collection) (name : String) (price : Int)
    (e e2 : Env) (hwf : e.fresh.WF)
    (hc : (createItem s (.object none (some name) (some price)) e).result.status? = some 201)
    (h2 : e2.fault = none) :
    (createItem s (.object none (some name) (some price)) e).result =
      .wrote ⟨201, some (.object ⟨"", name, price⟩)⟩ ∧
    (createItem s (.object none (some name) (some price)) e).store =
      s ++ [⟨.objectID e.fresh, name, price⟩] ∧
    (getItem (createItem s (.object none (some name) (some price)) e).store e.fresh.Hex e2).result =
      .wrote ⟨200, some (.object ⟨e.fresh.Hex, name, price⟩)⟩ := by
  obtain ⟨item, hb, hres, hnew, hstore⟩ := createItem_created s _ e hc
  have hitem : item = ⟨"", name, price⟩ := Bind_object_ok _ _ _ _ hb
  subst hitem
  have hid : (marshalBSON ⟨"", name, price⟩)._id.getD (.objectID e.fresh) = .objectID e.fresh := by
    simp [marshalBSON]
  rw [hid] at hnew hstore
  refine ⟨hres, hstore, ?_⟩
  rw [hstore]
  simp [getItem, ObjectIDFromHex_Hex e.fresh hwf, FindOne, h2,
    find?_append_new s e.fresh name price hnew, Decode, ctxJSON, jsonMarshal, StatusOK]

/-- Witness for C2 (amended): the widget of the specification, on the empty collection. -/
theorem C2_round_trip_by_assigned_id_witness :
    env0.fresh.WF ∧
    (createItem [] (.object none (some "widget") (some 10)) env0).result =
      .wrote ⟨201, some (.object ⟨"", "widget", 10⟩)⟩ ∧
    (createItem [] (.object none (some "widget") (some 10)) env0).store =
      [] ++ [⟨.objectID env0.fresh, "widget", 10⟩] ∧
    (getItem (createItem [] (.object none (some "widget") (some 10)) env0).store
        env0.fresh.Hex env0).result =
      .wrote ⟨200, some (.object ⟨env0.fresh.Hex, "widget", 10⟩)⟩ :=
  ⟨by decide,
    C2_round_trip_by_assigned_id [] "widget" 10 env0 env0 (by decide) (by decide) rfl⟩

/-- C3 (as stated, refuted): a create with the body id
`654f1a2a0000000000000001` is answered 201 and stores a document that is
listed under that identifier; its `_id` is the string, not an ObjectID. An
update on that identifier with the body `{name: "b"}` is answered 200, but
matches nothing: the collection still holds the old name and price, and
`getItem` on the identifier answers 500, not the replaced item. -/
theorem C3_string_id_is_not_replaced :
    (createItem [] (.object (some "654f1a2a0000000000000001") (some "a") (some 1)) env0).result =
      .wrote ⟨201, some (.object ⟨"654f1a2a0000000000000001", "a", 1⟩)⟩ ∧
    (createItem [] (.object (some "654f1a2a0000000000000001") (some "a") (some 1)) env0).store =
      [⟨.string "654f1a2a0000000000000001", "a", 1⟩] ∧
    (getAllItems [⟨.string "654f1a2a0000000000000001", "a", 1⟩] env0).result =
      .wrote ⟨200, some (.array [⟨"654f1a2a0000000000000001", "a", 1⟩])⟩ ∧
    (updateItem [⟨.string "654f1a2a0000000000000001", "a", 1⟩] "654f1a2a0000000000000001"
        (.object none (some "b") none) env0).result =
      .wrote ⟨200, some (.object ⟨"", "b", 0⟩)⟩ ∧
    (updateItem [⟨.string "654f1a2a0000000000000001", "a", 1⟩] "654f1a2a0000000000000001"
        (.object none (some "b") none) env0).store =
      [⟨.string "654f1a2a0000000000000001", "a", 1⟩] ∧
    (getItem (updateItem [⟨.string "654f1a2a0000000000000001", "a", 1⟩]
        "654f1a2a0000000000000001" (.object none (some "b") none) env0).store
        "654f1a2a0000000000000001" env0).result =
      .wrote ⟨500, some (.errorString .ErrNoDocuments)⟩ := by
  decide

/-- C3 (amended): for every stored document whose `_id` is the ObjectID the
path identifier parses to, and every update body without `id`, once
`updateItem` has answered 200, `getItem` on the same identifier (store call
not failing) answers 200 with the item whose name and price are those of the
body, an absent key counting as the zero value; nothing of the old name and
price is left. -/
theorem C3_replace_semantics (s : Collection) (id : String) (oid : ObjectID)
    (name : Option String) (price : Option Int) (e e2 : Env)
    (hid : ObjectIDFromHex id = .ok oid) (hdoc : ∃ d ∈ s, d._id = .objectID oid)
    (hu : (updateItem s id (.object none name price) e).result.status? = some 200)
    (h2 : e2.fault = none) :
    (getItem (updateItem s id (.object none name price) e).store id e2).result =
      .wrote ⟨200, some (.object ⟨oid.Hex, name.getD "", price.getD 0⟩)⟩ := by
  obtain ⟨d, hfind⟩ := find?_matchesID_of_mem s oid hdoc
  have hstore : (updateItem s id (.object none name price) e).store =
      replaceFirst oid ⟨none, name.getD "", price.getD 0⟩ s := by
    unfold updateItem at hu ⊢
    simp only [hid] at hu ⊢
    rcases Bind_object_cases none name price with hb | ⟨err, hb⟩
    · simp only [hb] at hu ⊢
      cases hf : e.fault with
      | some msg =>
        simp [ReplaceOne, hf, ctxJSON, HandlerResult.status?, StatusInternalServerError] at hu
      | none => simp [ReplaceOne, hf, hfind, marshalBSON]
    · simp [hb, HandlerResult.status?] at hu
  rw [hstore]
  have hget := find?_replaceFirst s oid ⟨none, name.getD "", price.getD 0⟩ d hfind
  simp [getItem, hid, FindOne, h2, hget, Decode, ctxJSON, jsonMarshal, StatusOK]

/-- Witness for C3 (amended): the example of the specification, `{name: "b"}` put over `{name: "a", price: 1}`; the price read back is 0. -/
theorem C3_replace_semantics_witness :
    ObjectIDFromHex "654f1a2a0000000000000001" = .ok env0.fresh ∧
    (getItem (updateItem [⟨.objectID env0.fresh, "a", 1⟩] "654f1a2a0000000000000001"
        (.object none (some "b") none) env0).store "654f1a2a0000000000000001" env0).result =
      .wrote ⟨200, some (.object ⟨env0.fresh.Hex, (some "b").getD "", (none : Option Int).getD 0⟩)⟩ :=
  ⟨by decide,
    C3_replace_semantics [⟨.objectID env0.fresh, "a", 1⟩] "654f1a2a0000000000000001" env0.fresh
      (some "b") none env0 env0 (by decide) ⟨_, List.mem_singleton.mpr rfl, rfl⟩ (by decide) rfl⟩

/-- C7 (as stated, refuted): an `id` in the create body is not ignored. Two
bodies that differ only in `id` are stored under two different `_id` values,
each the string the body supplied, none the ObjectID the driver had ready. -/
theorem C7_body_id_is_stored :
    (createItem [] (.object (some "abc") (some "n") (some 1)) env0).store =
      [⟨.string "abc", "n", 1⟩] ∧
    (createItem [] (.object (some "xyz") (some "n") (some 1)) env0).store =
      [⟨.string "xyz", "n", 1⟩] ∧
    (createItem [] (.object (some "abc") (some "n") (some 1)) env0).result.status? = some 201 ∧
    (createItem [] (.object (some "xyz") (some "n") (some 1)) env0).result.status? = some 201 := by
  decide

/-- C7 (amended): for every create request answered with 201, the inserted
document is appended to the collection with the name and price of the body;
when the body has no `id`, or an empty one, its `_id` is the ObjectID the
driver generated, and that does not depend on anything in the body; when the
body has a non-empty `id`, its `_id` is that string. -/
theorem C7_create_identifier (s : Collection) (id name : Option String) (price : Option Int)
    (e : Env)
    (hc : (createItem s (.object id name price) e).result.status? = some 201) :
    (createItem s (.object id name price) e).store =
      s ++ [⟨if id.getD "" = "" then .objectID e.fresh else .string (id.getD ""),
              name.getD "", price.getD 0⟩] := by
  obtain ⟨item, hb, _, _, hstore⟩ := createItem_created s _ e hc
  have hitem : item = ⟨id.getD "", name.getD "", price.getD 0⟩ := Bind_object_ok _ _ _ _ hb
  subst hitem
  rw [hstore]
  by_cases hid : id.getD "" = "" <;> simp [marshalBSON, hid]

/-- Witness for C7 (amended): a body without `id` on the empty collection. -/
theorem C7_create_identifier_witness :
    (createItem [] (.object none (some "n") (some 1)) env0).result.status? = some 201 ∧
    (createItem [] (.object none (some "n") (some 1)) env0).store =
      [] ++ [⟨if (none : Option String).getD "" = "" then .objectID env0.fresh
              else .string ((none : Option String).getD ""),
              (some "n").getD "", (some (1 : Int)).getD 0⟩] :=
  ⟨by decide, C7_create_identifier [] none (some "n") (some 1) env0 (by decide)⟩

/-- C9: for every sequence of requests without a delete, served from the
empty collection, of which N creates were answered with 201, `getAllItems`
(store calls not failing) answers 200 with the slice of exactly N items, the
decoding of each stored document once and in store order: the loop drops
none and repeats none. For N at least 1 the body is the JSON array of these N
items. -/
theorem C9_list_completeness (trace : List (Request × Env)) (e : Env)
    (hnd : ∀ p ∈ trace, p.1.isDelete = false)
    (hf : e.fault = none) (hc : e.cursorFault = none) :
    ∃ items : Option (List Item),
      (getAllItems (run [] trace) e).result = ctxJSON 200 (.items items) ∧
      (items.getD []).length = createdCount [] trace ∧
      (items.getD []).map Except.ok = (run [] trace).map Decode ∧
      (0 < createdCount [] trace →
        (getAllItems (run [] trace) e).result = .wrote ⟨200, some (.array (items.getD []))⟩) := by
  obtain ⟨items, h1, h2, h3⟩ := decodeLoop_spec (run [] trace) none
  have hlen := run_length trace [] hnd
  have h2b : (items.getD []).map Except.ok = (run [] trace).map Decode := by simpa using h2
  have hl : (items.getD []).length = createdCount [] trace := by
    have := congrArg List.length h2b
    simp only [List.length_map] at this
    rw [this, hlen]
    simp
  refine ⟨items, ?_, hl, h2b, ?_⟩
  · simp [getAllItems, Find, hf, hc, h1, StatusOK]
  · intro hpos
    have hne : run [] trace ≠ [] := by
      intro h0
      rw [h0] at hlen
      simp at hlen
      omega
    have hsome := h3 hne
    simp only [getAllItems, Find, hf, hc, h1, StatusOK, ctxJSON]
    rw [hsome]
    simp [jsonMarshal]

/-- Witness for C9: three creates on the empty collection; the third is refused as a duplicate of the first, so two documents are stored and two items are listed. -/
theorem C9_list_completeness_witness :
    ∃ items : Option (List Item),
      (getAllItems (run [] [(.create (.object none (some "a") (some 1)), env0),
          (.create (.object (some "k") (some "b") (some 2)), env0),
          (.create (.object none (some "c") (some 3)), env0)]) env0).result =
        ctxJSON 200 (.items items) ∧
      (items.getD []).length =
        createdCount [] [(.create (.object none (some "a") (some 1)), env0),
          (.create (.object (some "k") (some "b") (some 2)), env0),
          (.create (.object none (some "c") (some 3)), env0)] ∧
      (items.getD []).map Except.ok =
        (run [] [(.create (.object none (some "a") (some 1)), env0),
          (.create (.object (some "k") (some "b") (some 2)), env0),
          (.create (.object none (some "c") (some 3)), env0)]).map Decode ∧
      (0 < createdCount [] [(.create (.object none (some "a") (some 1)), env0),
          (.create (.object (some "k") (some "b") (some 2)), env0),
          (.create (.object none (some "c") (some 3)), env0)] →
        (getAllItems (run [] [(.create (.object none (some "a") (some 1)), env0),
          (.create (.object (some "k") (some "b") (some 2)), env0),
          (.create (.object none (some "c") (some 3)), env0)]) env0).result =
          .wrote ⟨200, some (.array (items.getD []))⟩) :=
  C9_list_completeness [(.create (.object none (some "a") (some 1)), env0),
      (.create (.object (some "k") (some "b") (some 2)), env0),
      (.create (.object none (some "c") (some 3)), env0)] env0 (by decide) rfl rfl

end CrudMongoEcho
